import Mathlib

/-!
Verification of the song-list page in `src/frontend/src/App.tsx`
(MusiCurationDesk). The component keeps four pieces of state
(`songs`, `error`, `keyword`, `sortKey`), builds a query string with
`URLSearchParams`, issues a GET to `http://127.0.0.1:8000/songs/`, and
renders the response as a list. We embed the state, the request
construction of `fetchSongs`, its response handlers, the event wiring
(mount effect, sort-change effect, search button, keyword input) and
the JSX rendering, and prove the spec's properties about them.
-/

/-- A song record, from the `Song` interface in `App.tsx`:
`id : number`, `title : string`, `release_date : string | null`. -/
structure Song where
  id : Int
  title : String
  release_date : Option String
  deriving Repr, DecidableEq

/-- The component's four `useState` slots, with their initial values in
`initialAppState` below: `songs = []`, `error = ""`, `keyword = ""`,
`sortKey = "id"`. -/
structure AppState where
  songs : List Song
  error : String
  keyword : String
  sortKey : String
  deriving Repr, DecidableEq

/-- Initial state of `App`: empty list, no error, empty search box,
sort key `"id"`. -/
def initialAppState : AppState :=
  { songs := [], error := "", keyword := "", sortKey := "id" }

/-- UTF-8 byte sequence of a character (by its code point), as used by
`URLSearchParams` serialization, which percent-encodes the UTF-8 bytes. -/
def utf8Bytes (c : Char) : List Nat :=
  let n := c.toNat
  if n < 128 then [n]
  else if n < 2048 then [192 + n / 64, 128 + n % 64]
  else if n < 65536 then [224 + n / 4096, 128 + (n / 64) % 64, 128 + n % 64]
  else [240 + n / 262144, 128 + (n / 4096) % 64, 128 + (n / 64) % 64, 128 + n % 64]

/-- Upper-case hexadecimal digit for a value below 16. -/
def hexDigit (n : Nat) : Char :=
  if n < 10 then Char.ofNat (48 + n) else Char.ofNat (55 + n)

/-- Whether a byte is serialized verbatim by the
`application/x-www-form-urlencoded` serializer used by
`URLSearchParams.toString`: ASCII alphanumerics and `*`, `-`, `.`, `_`. -/
def urlencodedUnreserved (b : Nat) : Bool :=
  (48 ≤ b && b ≤ 57) || (65 ≤ b && b ≤ 90) || (97 ≤ b && b ≤ 122)
    || b == 42 || b == 45 || b == 46 || b == 95

/-- Serialization of one byte: verbatim if unreserved, `+` for a space
byte, `%XX` otherwise. -/
def encodeByte (b : Nat) : String :=
  if urlencodedUnreserved b then String.singleton (Char.ofNat b)
  else if b == 32 then "+"
  else String.mk ['%', hexDigit (b / 16 % 16), hexDigit (b % 16)]

/-- `application/x-www-form-urlencoded` encoding of a string, as
`URLSearchParams` applies to each name and value. -/
def urlencode (s : String) : String :=
  String.join (s.data.map (fun c => String.join ((utf8Bytes c).map encodeByte)))

/-- `URLSearchParams.toString()` on an ordered list of name/value
pairs: `name=value` entries joined by `&`, each side urlencoded. -/
def searchParamsToString (ps : List (String × String)) : String :=
  String.intercalate "&" (ps.map (fun p => urlencode p.1 ++ "=" ++ urlencode p.2))

/-- The query parameters `fetchSongs` appends: `title_search` with the
search-box content when it is truthy (non-empty), then `sort_by` with
the sort key when it is truthy (non-empty) — mirroring the two
`if (...) params.append(...)` statements in `App.tsx`. -/
def buildParams (keyword sortKey : String) : List (String × String) :=
  (if keyword = "" then [] else [("title_search", keyword)])
    ++ (if sortKey = "" then [] else [("sort_by", sortKey)])

/-- An HTTP request as issued by `fetch` in `fetchSongs`: the method
(`fetch` defaults to GET), the full URL, and the structured query
parameters the URL was built from. -/
structure Request where
  method : String
  url : String
  params : List (String × String)
  deriving Repr, DecidableEq

/-- The request `fetchSongs` issues for a given search-box content and
sort key: `GET http://127.0.0.1:8000/songs/?${params.toString()}`. -/
def fetchSongsRequest (keyword sortKey : String) : Request :=
  let ps := buildParams keyword sortKey
  { method := "GET"
  , url := "http://127.0.0.1:8000/songs/?" ++ searchParamsToString ps
  , params := ps }

/-- Outcome of one `fetch`: the promise rejects (network error), or a
response arrives with an `ok` flag and — when the body is read — either
a parsed JSON array of songs or a parse failure (`none`). -/
inductive FetchResult where
  | networkError : FetchResult
  | httpResponse (ok : Bool) (body : Option (List Song)) : FetchResult
  deriving Repr, DecidableEq

/-- The fixed user-visible error text set by the `catch` handler in
`fetchSongs`. -/
def fetchErrorText : String := "データの取得に失敗しました"

/-- The `then`/`catch` handler chain of `fetchSongs` applied to one
arriving outcome: a non-`ok` response throws and is caught (only
`setError` runs), a rejected fetch or a JSON parse failure is caught
the same way, and an `ok` response with parsed data runs
`setSongs(data); setError("")`. -/
def applyFetchResult (s : AppState) (r : FetchResult) : AppState :=
  match r with
  | FetchResult.networkError => { s with error := fetchErrorText }
  | FetchResult.httpResponse ok body =>
    if ok then
      match body with
      | some data => { s with songs := data, error := "" }
      | none => { s with error := fetchErrorText }
    else { s with error := fetchErrorText }

/-- A user/lifecycle event of the component: the initial mount (the
`useEffect` runs), typing in the search box (`onChange` of the input),
picking a sort option (`onChange` of the select), or clicking the
search button (`onClick`). -/
inductive Event where
  | mount : Event
  | keywordEdit (t : String) : Event
  | sortChange (k : String) : Event
  | searchClick : Event
  deriving Repr, DecidableEq

/-- One synchronous step of the component: the new state and the list
of requests issued during the step. Mount runs the effect and fetches
with the current state; a keyword edit only calls `setKeyword`; a sort
change calls `setSortKey`, and the `useEffect` with dependency
`[sortKey]` re-runs (fetching with the new key) exactly when the value
actually changed; the search button calls `fetchSongs` directly. -/
def step (s : AppState) (e : Event) : AppState × List Request :=
  match e with
  | Event.mount => (s, [fetchSongsRequest s.keyword s.sortKey])
  | Event.keywordEdit t => ({ s with keyword := t }, [])
  | Event.sortChange k =>
    if k = s.sortKey then (s, [])
    else ({ s with sortKey := k }, [fetchSongsRequest s.keyword k])
  | Event.searchClick => (s, [fetchSongsRequest s.keyword s.sortKey])

/-- The date text of a list entry: `song.release_date || '発売日未定'`,
i.e. the fallback for a null or otherwise falsy (empty) string. -/
def renderDate (rd : Option String) : String :=
  match rd with
  | none => "発売日未定"
  | some d => if d = "" then "発売日未定" else d

/-- One rendered `<li>`: its React key, the bold title, and the date
text. -/
structure RenderedEntry where
  key : Int
  title : String
  dateText : String
  deriving Repr, DecidableEq

/-- Rendering of one song record into its list entry. -/
def renderEntry (song : Song) : RenderedEntry :=
  { key := song.id, title := song.title, dateText := renderDate song.release_date }

/-- The data-bearing parts of the rendered page: the `<h2>` count line,
the conditionally shown error paragraph (`error && <p>...`), and the
`<ul>` entries produced by `songs.map(...)`. -/
structure RenderedPage where
  countText : String
  errorBox : Option String
  entries : List RenderedEntry
  deriving Repr, DecidableEq

/-- The render function of `App`: count heading from `songs.length`,
the error paragraph shown exactly when `error` is truthy, one entry per
song in order. -/
def render (s : AppState) : RenderedPage :=
  { countText := "🎵 楽曲リスト (" ++ toString s.songs.length ++ "曲)"
  , errorBox := if s.error = "" then none else some s.error
  , entries := s.songs.map renderEntry }

/-- C1: for every fetch that fails — the network call rejects or the
HTTP status is non-success — the songs list is exactly what it was
before the fetch (no record added, removed, or modified) and the error
state is set to the single fixed error string. -/
theorem failure_preserves_songs_and_sets_fixed_error (s : AppState) (r : FetchResult)
    (h : r = FetchResult.networkError ∨ ∃ b, r = FetchResult.httpResponse false b) :
    (applyFetchResult s r).songs = s.songs
      ∧ (applyFetchResult s r).error = fetchErrorText := by
  rcases h with h | ⟨b, h⟩ <;> subst h <;> simp [applyFetchResult]

/-- C1 witness: a network error on a state already showing one song
leaves that song displayed and sets the fixed error text. -/
theorem failure_preserves_songs_and_sets_fixed_error_witness :
    (applyFetchResult ⟨[⟨1, "a", none⟩], "", "kw", "id"⟩ FetchResult.networkError).songs
        = [⟨1, "a", none⟩]
      ∧ (applyFetchResult ⟨[⟨1, "a", none⟩], "", "kw", "id"⟩ FetchResult.networkError).error
        = fetchErrorText :=
  failure_preserves_songs_and_sets_fixed_error
    ⟨[⟨1, "a", none⟩], "", "kw", "id"⟩ FetchResult.networkError (Or.inl rfl)

/-- C2: every issued request carries `title_search` with exactly the
current search-box string when that string is non-empty, and carries no
`title_search` parameter when it is empty. -/
theorem title_search_iff_keyword_nonempty (kw sk : String) :
    (kw ≠ "" →
      ((fetchSongsRequest kw sk).params.filter (fun p => p.1 == "title_search"))
        = [("title_search", kw)])
  ∧ (kw = "" →
      ((fetchSongsRequest kw sk).params.filter (fun p => p.1 == "title_search")) = []) := by
  constructor
  · intro h
    by_cases hs : sk = "" <;> simp [fetchSongsRequest, buildParams, h, hs]
  · intro h
    by_cases hs : sk = "" <;> simp [fetchSongsRequest, buildParams, h, hs]

/-- C2 witness: with search box `"abc"` the request carries exactly
`title_search=abc`; with an empty box it carries no `title_search`. -/
theorem title_search_iff_keyword_nonempty_witness :
    ((fetchSongsRequest "abc" "id").params.filter (fun p => p.1 == "title_search"))
        = [("title_search", "abc")]
      ∧ ((fetchSongsRequest "" "id").params.filter (fun p => p.1 == "title_search")) = [] :=
  ⟨(title_search_iff_keyword_nonempty "abc" "id").1 (by decide),
   (title_search_iff_keyword_nonempty "" "id").2 rfl⟩

/-- C3: on initial display, and on every actual change of the sort
selection to one of the keys `id`, `release_date`, `title`, exactly one
GET request is issued, to the fixed URL
`http://127.0.0.1:8000/songs/`, carrying a `sort_by` parameter equal to
the currently selected sort key. -/
theorem mount_and_sort_change_issue_one_get (s : AppState) (k : String)
    (hk : k = "id" ∨ k = "release_date" ∨ k = "title") (hne : k ≠ s.sortKey) :
    (step initialAppState Event.mount).2 = [fetchSongsRequest "" "id"]
  ∧ (fetchSongsRequest "" "id").method = "GET"
  ∧ (fetchSongsRequest "" "id").params.filter (fun p => p.1 == "sort_by")
      = [("sort_by", initialAppState.sortKey)]
  ∧ (step s (Event.sortChange k)).2 = [fetchSongsRequest s.keyword k]
  ∧ (fetchSongsRequest s.keyword k).method = "GET"
  ∧ (∃ q, (fetchSongsRequest s.keyword k).url = "http://127.0.0.1:8000/songs/?" ++ q)
  ∧ (fetchSongsRequest s.keyword k).params.filter (fun p => p.1 == "sort_by")
      = [("sort_by", k)] := by
  have hk0 : k ≠ "" := by rcases hk with h | h | h <;> subst h <;> decide
  refine ⟨rfl, rfl, by decide, ?_, rfl,
    ⟨searchParamsToString (buildParams s.keyword k), rfl⟩, ?_⟩
  · simp [step, hne]
  · by_cases hkw : s.keyword = "" <;> simp [fetchSongsRequest, buildParams, hk0, hkw]

/-- C3 witness: from the initial state, changing the sort selection to
`title` issues exactly the one request with `sort_by=title`; the mount
request carries `sort_by=id`. -/
theorem mount_and_sort_change_issue_one_get_witness :
    (step initialAppState (Event.sortChange "title")).2 = [fetchSongsRequest "" "title"]
      ∧ (fetchSongsRequest "" "title").params.filter (fun p => p.1 == "sort_by")
        = [("sort_by", "title")]
      ∧ (step initialAppState Event.mount).2 = [fetchSongsRequest "" "id"] :=
  ⟨(mount_and_sort_change_issue_one_get initialAppState "title"
      (Or.inr (Or.inr rfl)) (by decide)).2.2.2.1,
   (mount_and_sort_change_issue_one_get initialAppState "title"
      (Or.inr (Or.inr rfl)) (by decide)).2.2.2.2.2.2,
   (mount_and_sort_change_issue_one_get initialAppState "title"
      (Or.inr (Or.inr rfl)) (by decide)).1⟩

/-- C4: every fetch that succeeds (status `ok` and the body parses)
replaces the songs list wholesale with the parsed array and resets the
error message to the empty string, leaving the other state slots
untouched. -/
theorem success_replaces_songs_and_clears_error (s : AppState) (d : List Song) :
    applyFetchResult s (FetchResult.httpResponse true (some d))
      = { s with songs := d, error := "" } := rfl

/-- C5: a state holding N song records renders exactly N list entries,
the i-th entry rendered from the i-th record, and the count line
displays N. -/
theorem render_one_entry_per_song (s : AppState) :
    (render s).entries.length = s.songs.length
  ∧ (∀ i : Nat, ((render s).entries)[i]? = (s.songs[i]?).map renderEntry)
  ∧ (render s).countText = "🎵 楽曲リスト (" ++ toString s.songs.length ++ "曲)" := by
  refine ⟨by simp [render], fun i => ?_, rfl⟩
  simp [render, List.getElem?_map]

/-- C6: the two failure modes — a rejected network call and a completed
call with a non-success status — set the identical fixed error text,
whatever body the non-success response carries. -/
theorem both_failure_modes_same_error_text (s : AppState) (b : Option (List Song)) :
    (applyFetchResult s FetchResult.networkError).error
        = (applyFetchResult s (FetchResult.httpResponse false b)).error
      ∧ (applyFetchResult s FetchResult.networkError).error = fetchErrorText := by
  constructor <;> rfl

/-- C7: response handlers run in arrival order and each successful one
overwrites the songs list unconditionally, so after any sequence of
outcomes the displayed list is the data of the last response to arrive
— regardless of which earlier-sent or later-sent request it answers. -/
theorem last_arriving_response_wins (s : AppState) (rs : List FetchResult) (d : List Song) :
    ((rs ++ [FetchResult.httpResponse true (some d)]).foldl applyFetchResult s).songs = d := by
  simp [List.foldl_append, applyFetchResult]

/-- C8: a record whose `release_date` is the empty string renders the
same fallback placeholder as a record whose `release_date` is null. -/
theorem empty_release_date_renders_fallback (i : Int) (t : String) :
    (renderEntry ⟨i, t, some ""⟩).dateText = (renderEntry ⟨i, t, none⟩).dateText
      ∧ (renderEntry ⟨i, t, some ""⟩).dateText = "発売日未定" := by
  constructor <;> rfl

/-- C9: editing the search-box text issues no request and leaves the
songs list and error message unchanged; any event that issues a request
is the mount, the search-button click, or a sort change. -/
theorem keyword_edit_issues_no_request (s : AppState) (t : String) :
    (step s (Event.keywordEdit t)).2 = []
  ∧ ((step s (Event.keywordEdit t)).1).songs = s.songs
  ∧ ((step s (Event.keywordEdit t)).1).error = s.error
  ∧ (∀ e : Event, (step s e).2 ≠ [] →
      e = Event.mount ∨ e = Event.searchClick ∨ ∃ k, e = Event.sortChange k) := by
  refine ⟨rfl, rfl, rfl, fun e he => ?_⟩
  cases e with
  | mount => exact Or.inl rfl
  | keywordEdit t => exact absurd rfl he
  | sortChange k => exact Or.inr (Or.inr ⟨k, rfl⟩)
  | searchClick => exact Or.inr (Or.inl rfl)

/-- C9 witness: at the initial state, typing `"x"` issues no request,
and the mount event (which does issue a request) is one of the three
permitted fetch triggers. -/
theorem keyword_edit_issues_no_request_witness :
    (step initialAppState (Event.keywordEdit "x")).2 = []
      ∧ (Event.mount = Event.mount ∨ Event.mount = Event.searchClick
          ∨ ∃ k, Event.mount = Event.sortChange k) :=
  ⟨(keyword_edit_issues_no_request initialAppState "x").1,
   (keyword_edit_issues_no_request initialAppState "x").2.2.2 Event.mount (by decide)⟩

/-- C10: the very first request, issued on mount from the initial state
(empty search box, default sort key `id`), is exactly
`GET http://127.0.0.1:8000/songs/?sort_by=id`, with no `title_search`
parameter. -/
theorem first_request_is_sort_by_id :
    (step initialAppState Event.mount).2 = [fetchSongsRequest "" "id"]
  ∧ (fetchSongsRequest "" "id").method = "GET"
  ∧ (fetchSongsRequest "" "id").url = "http://127.0.0.1:8000/songs/?sort_by=id"
  ∧ (fetchSongsRequest "" "id").params = [("sort_by", "id")] := by
  refine ⟨rfl, rfl, by decide, rfl⟩
